/-
Verification of hppCorbaServer's server coordinator (src/src/hppciServer.cpp).

Shallow embedding: the two strategy-factory registries
(`attMapSteeringMethodFactory`, `attMapDistanceFunctionFactory`, both
`std::map<std::string, Factory*>` in C++) are modelled as association lists
with unique keys built by `mapAssign`; the mutating member functions become
state-passing functions returning the updated map.  The CORBA broker, the
external kwsPlus factory classes and the planner are external collaborators:
their behaviour is abstracted (virtual calls become function parameters,
fallible broker sub-steps become boolean outcome fields of an environment
record) while every control-flow decision made by hppciServer.cpp itself is
reproduced from the source.
-/
import Mathlib

set_option autoImplicit false

/-- KineoWorks status code returned by fallible operations (`KD_OK` / `KD_ERROR`). -/
inductive ktStatus where
  | KD_OK : ktStatus
  | KD_ERROR : ktStatus
deriving DecidableEq

/-- The external steering-method factory classes instantiated in
`initMapSteeringMethodFactory` (kwsPlus library, outside this repository).
The registry never inspects which variant it holds; `1.0` of
`CkwsPlusRSSteeringMethodFactory(1.0)` is carried as a rational parameter. -/
inductive CkwsPlusSteeringMethodFactory where
  | linearSMFactory : CkwsPlusSteeringMethodFactory
  | rsSMFactory (param : Rat) : CkwsPlusSteeringMethodFactory
  | flicSMFactory : CkwsPlusSteeringMethodFactory
deriving DecidableEq

/-- The external distance-function factory classes instantiated in
`initMapDistanceFunctionFactory` (kwsPlus library, outside this repository). -/
inductive CkwsPlusDistanceFactory where
  | linearDistanceFactory : CkwsPlusDistanceFactory
  | rsDistanceFactory (param : Rat) : CkwsPlusDistanceFactory
  | approxFlicDistanceFactory : CkwsPlusDistanceFactory
deriving DecidableEq

/-- A `std::map<std::string, F*>` value: association list from names to
pointers (`Option F`, `none` being the null pointer).  `std::map` keeps keys
unique; maps built by `mapAssign` from `[]` satisfy `nodupKeys`.  `std::map`
iterates in key order while this model iterates in insertion order; every
claim below is insensitive to entry order. -/
abbrev RegMap (F : Type) := List (String × Option F)

/-- `std::map::count(k)`: number of entries whose key equals `k` (0 or 1 for
an actual `std::map`). -/
def mapCount {V : Type} (m : List (String × V)) (k : String) : Nat :=
  match m with
  | [] => 0
  | p :: rest => (if p.1 = k then 1 else 0) + mapCount rest k

/-- Lookup: the value of the first entry with key `k`, if any. -/
def mapFind {V : Type} (m : List (String × V)) (k : String) : Option V :=
  match m with
  | [] => none
  | p :: rest => if p.1 = k then some p.2 else mapFind rest k

/-- `m[k] = v` (assignment through `std::map::operator[]`): overwrite the
entry with key `k` if present, otherwise insert a new entry. -/
def mapAssign {V : Type} (m : List (String × V)) (k : String) (v : V) :
    List (String × V) :=
  match m with
  | [] => [(k, v)]
  | p :: rest => if p.1 = k then (k, v) :: rest else p :: mapAssign rest k v

/-- Read through `std::map::operator[]`: if the key is absent a
default-constructed value (`dflt`, the null pointer for pointer maps) is
inserted and returned. -/
def mapIndex {V : Type} (m : List (String × V)) (k : String) (dflt : V) :
    (List (String × V)) × V :=
  match mapFind m k with
  | some v => (m, v)
  | none => (mapAssign m k dflt, dflt)

/-- Key uniqueness, the `std::map` representation invariant. -/
def nodupKeys {V : Type} (m : List (String × V)) : Prop :=
  (m.map Prod.fst).Nodup

instance nodupKeysDecidable {V : Type} (m : List (String × V)) :
    Decidable (nodupKeys m) :=
  inferInstanceAs (Decidable ((m.map Prod.fst).Nodup))

/-
            STEERING METHOD FACTORIES  (hppciServer.cpp lines 61-111)
-/

/-- `ChppciServer::initMapSteeringMethodFactory` (lines 61-66): registers the
three built-in steering-method factories. -/
def initMapSteeringMethodFactory (m : RegMap CkwsPlusSteeringMethodFactory) :
    RegMap CkwsPlusSteeringMethodFactory :=
  let m1 := mapAssign m "linear" (some CkwsPlusSteeringMethodFactory.linearSMFactory)
  let m2 := mapAssign m1 "rs" (some (CkwsPlusSteeringMethodFactory.rsSMFactory 1))
  mapAssign m2 "flic" (some CkwsPlusSteeringMethodFactory.flicSMFactory)

/-- `ChppciServer::steeringMethodFactoryAlreadySet` (lines 83-89). -/
def steeringMethodFactoryAlreadySet (m : RegMap CkwsPlusSteeringMethodFactory)
    (inName : String) : Bool :=
  if mapCount m inName = 1 then true else false

/-- `ChppciServer::addSteeringMethodFactory` (lines 92-100): state-passing
version returning the updated map and the C++ boolean result. -/
def addSteeringMethodFactory (m : RegMap CkwsPlusSteeringMethodFactory)
    (inName : String)
    (inSteeringMethodFactory : Option CkwsPlusSteeringMethodFactory) :
    RegMap CkwsPlusSteeringMethodFactory × Bool :=
  if steeringMethodFactoryAlreadySet m inName then (m, false)
  else (mapAssign m inName inSteeringMethodFactory, true)

/-- `ChppciServer::createSteeringMethod` (lines 102-111).  `SM` is the type
behind `CkwsSteeringMethodShPtr`; the virtual call
`factory->makeSteeringMethod(inOriented)` on the external factory class is
the parameter `makeSteeringMethod`.  The map read uses `operator[]`
(`mapIndex`), whose default-insertion branch is unreachable under the
`steeringMethodFactoryAlreadySet` guard; the `(m2, none)` branch corresponds
to calling through a stored null pointer, which the C++ would not survive. -/
def createSteeringMethod {SM : Type}
    (makeSteeringMethod : CkwsPlusSteeringMethodFactory → Bool → Option SM)
    (m : RegMap CkwsPlusSteeringMethodFactory) (inName : String)
    (inOriented : Bool) : RegMap CkwsPlusSteeringMethodFactory × Option SM :=
  let result : Option SM := none
  if steeringMethodFactoryAlreadySet m inName then
    match mapIndex m inName none with
    | (m2, some factory) => (m2, makeSteeringMethod factory inOriented)
    | (m2, none) => (m2, none)
  else (m, result)

/-
            DISTANCE FUNCTION FACTORIES  (hppciServer.cpp lines 117-167)
-/

/-- `ChppciServer::initMapDistanceFunctionFactory` (lines 117-122). -/
def initMapDistanceFunctionFactory (m : RegMap CkwsPlusDistanceFactory) :
    RegMap CkwsPlusDistanceFactory :=
  let m1 := mapAssign m "linear" (some CkwsPlusDistanceFactory.linearDistanceFactory)
  let m2 := mapAssign m1 "rs" (some (CkwsPlusDistanceFactory.rsDistanceFactory 1))
  mapAssign m2 "flic" (some CkwsPlusDistanceFactory.approxFlicDistanceFactory)

/-- `ChppciServer::distanceFactoryAlreadySet` (lines 139-145). -/
def distanceFactoryAlreadySet (m : RegMap CkwsPlusDistanceFactory)
    (inName : String) : Bool :=
  if mapCount m inName = 1 then true else false

/-- `ChppciServer::addDistanceFactory` (lines 148-156). -/
def addDistanceFactory (m : RegMap CkwsPlusDistanceFactory) (inName : String)
    (inDistanceFunctionFactory : Option CkwsPlusDistanceFactory) :
    RegMap CkwsPlusDistanceFactory × Bool :=
  if distanceFactoryAlreadySet m inName then (m, false)
  else (mapAssign m inName inDistanceFunctionFactory, true)

/-- `ChppciServer::createDistanceFunction` (lines 158-167); the virtual call
`factory->makeDistance(inOriented)` is the parameter `makeDistance`. -/
def createDistanceFunction {D : Type}
    (makeDistance : CkwsPlusDistanceFactory → Bool → Option D)
    (m : RegMap CkwsPlusDistanceFactory) (inName : String) (inOriented : Bool) :
    RegMap CkwsPlusDistanceFactory × Option D :=
  let result : Option D := none
  if distanceFactoryAlreadySet m inName then
    match mapIndex m inName none with
    | (m2, some factory) => (m2, makeDistance factory inOriented)
    | (m2, none) => (m2, none)
  else (m, result)

/-
            FACTORY DESTRUCTION  (hppciServer.cpp lines 42-50, 68-81, 124-137)
-/

/-- Observable side effects of `ChppciServer::~ChppciServer` and the two
`destroy*Factories` helpers. -/
inductive DtorAction where
  | deactivateAndDestroyServers : DtorAction
  | orbShutdown : DtorAction
  | deletePrivateImpl : DtorAction
  | deleteSteeringMethodFactory (name : String)
      (factory : Option CkwsPlusSteeringMethodFactory) : DtorAction
  | deleteDistanceFunctionFactory (name : String)
      (factory : Option CkwsPlusDistanceFactory) : DtorAction
deriving DecidableEq

/-- `ChppciServer::destroySteeringMethodFactories` (lines 68-81): iterates
over the map and `delete`s every stored factory pointer. -/
def destroySteeringMethodFactories (m : RegMap CkwsPlusSteeringMethodFactory) :
    List DtorAction :=
  m.map (fun p => DtorAction.deleteSteeringMethodFactory p.1 p.2)

/-- `ChppciServer::destroyDistanceFunctionFactories` (lines 124-137): same
for the distance registry.  (Defined in the source but never called.) -/
def destroyDistanceFunctionFactories (m : RegMap CkwsPlusDistanceFactory) :
    List DtorAction :=
  m.map (fun p => DtorAction.deleteDistanceFunctionFactory p.1 p.2)

/-- Whether a destructor action releases a distance-function factory. -/
def isDeleteDistanceAction : DtorAction → Bool
  | DtorAction.deleteDistanceFunctionFactory _ _ => true
  | _ => false

/-- Whether a destructor action releases a steering-method factory. -/
def isDeleteSteeringAction : DtorAction → Bool
  | DtorAction.deleteSteeringMethodFactory _ _ => true
  | _ => false

/-
            COORDINATOR CONSTRUCTION / DESTRUCTION / SINGLETON
            (hppciServer.cpp lines 28-55, 175-247)
-/

/-- The external planning engine (`ChppPlanner`), opaque to the server. -/
structure ChppPlanner where
  plannerId : Nat
deriving DecidableEq

/-- Outcomes of the fallible broker sub-steps of
`ChppciServer::initORBandServers` (lines 175-247): ORB creation, RootPOA
resolution, thread-policy creation, child-POA creation, policy destruction
(each `try`/`HPPCI_CATCH` block, a `false` meaning the C++ block failed or
threw), then the status of the delegated
`ChppciServerPrivate::createAndActivateServers`. -/
structure BootstrapEnv where
  orbInitOk : Bool
  resolveRootPoaOk : Bool
  createThreadPolicyOk : Bool
  createChildPoaOk : Bool
  destroyPolicyOk : Bool
  createAndActivateServersStatus : ktStatus
deriving DecidableEq

/-- `ChppciServer::initORBandServers` (lines 175-247): first failing
sub-step returns `KD_ERROR`; on success the status of
`createAndActivateServers` is returned. -/
def initORBandServers (env : BootstrapEnv) : ktStatus :=
  if !env.orbInitOk then ktStatus.KD_ERROR
  else if !env.resolveRootPoaOk then ktStatus.KD_ERROR
  else if !env.createThreadPolicyOk then ktStatus.KD_ERROR
  else if !env.createChildPoaOk then ktStatus.KD_ERROR
  else if !env.destroyPolicyOk then ktStatus.KD_ERROR
  else env.createAndActivateServersStatus

/-- The `ChppciServer` state the claims observe: the planner reference and
the two factory registries.  (`attPrivate` holds only broker state, modelled
separately by `BootstrapEnv` / `OrbState`.) -/
structure ChppciServer where
  hppPlanner : ChppPlanner
  attMapSteeringMethodFactory : RegMap CkwsPlusSteeringMethodFactory
  attMapDistanceFunctionFactory : RegMap CkwsPlusDistanceFactory
deriving DecidableEq

/-- `ChppciServer::ChppciServer` (lines 30-39): stores the planner, calls
`initORBandServers` DISCARDING its `ktStatus` result, then populates both
registries (fresh `std::map` members start empty).  The constructor returns
no status: its result is just the constructed object. -/
def ChppciServer.construct (inHppPlanner : ChppPlanner) (env : BootstrapEnv) :
    ChppciServer :=
  let _discardedStatus : ktStatus := initORBandServers env
  { hppPlanner := inHppPlanner
    attMapSteeringMethodFactory := initMapSteeringMethodFactory []
    attMapDistanceFunctionFactory := initMapDistanceFunctionFactory [] }

/-- `ChppciServer::~ChppciServer` (lines 42-50) as its trace of release
actions: deactivate servers, shut down the ORB, delete `attPrivate`, then
`destroySteeringMethodFactories()`.  (`destroyDistanceFunctionFactories` is
NOT in the source destructor.) -/
def serverDestructor (srv : ChppciServer) : List DtorAction :=
  [DtorAction.deactivateAndDestroyServers, DtorAction.orbShutdown,
   DtorAction.deletePrivateImpl]
    ++ destroySteeringMethodFactories srv.attMapSteeringMethodFactory

/-- Lifecycle events acting on the static pointer `s_hppciServer`. -/
inductive ServerEvent where
  | construct (p : ChppPlanner) (env : BootstrapEnv) : ServerEvent
  | destroy : ServerEvent

/-- Effect of a lifecycle event on `s_hppciServer` (line 28): the
constructor's first statement is `s_hppciServer = this` (line 33); the
destructor sets `s_hppciServer = NULL` (line 48). -/
def stepStatic (_s : Option ChppciServer) (e : ServerEvent) :
    Option ChppciServer :=
  match e with
  | ServerEvent.construct p env => some (ChppciServer.construct p env)
  | ServerEvent.destroy => none

/-- `ChppciServer::getInstance` (lines 52-55): returns the static pointer,
null (`none`) when no instance exists. -/
def getInstance (s : Option ChppciServer) : Option ChppciServer := s

/-
            startCorbaServer  (hppciServer.cpp lines 249-297)
-/

/-- One segment of a `CosNaming::Name`: `id` and `kind` strings. -/
structure NameComponent where
  id : String
  kind : String
deriving DecidableEq

/-- A `CosNaming::Name`: a sequence of `{id, kind}` segments. -/
abbrev CosNamingName := List NameComponent

/-- Observable broker-facing steps of `ChppciServer::startCorbaServer`.
`objTag` identifies which servant's reference is passed
(robot / obstacle / problem). -/
inductive CorbaAction where
  | createHppContext : CorbaAction
  | bindObjectToName (objTag : String) (objectName : CosNamingName) : CorbaAction
  | removeRef (objTag : String) : CorbaAction
  | activatePOAManager : CorbaAction
deriving DecidableEq

/-- Outcomes of the fallible calls inside `startCorbaServer`: the boolean
results of `createHppContext` and of the three `bindObjectToName` calls. -/
structure StartEnv where
  createHppContextOk : Bool
  bindRobotOk : Bool
  bindObstacleOk : Bool
  bindProblemOk : Bool
deriving DecidableEq

/-- `ChppciServer::startCorbaServer` (lines 249-297) as the pair (trace of
broker-facing actions attempted, returned status).  Each failed call returns
`KD_ERROR` immediately; only after all three bindings succeed is the POA
manager activated and `KD_OK` returned. -/
def startCorbaServer (env : StartEnv) : List CorbaAction × ktStatus :=
  let trace0 := [CorbaAction.createHppContext]
  if !env.createHppContextOk then (trace0, ktStatus.KD_ERROR)
  else
    let robotName : CosNamingName := [⟨"Robot", "Object"⟩]
    let trace1 := trace0 ++ [CorbaAction.bindObjectToName "robot" robotName]
    if !env.bindRobotOk then (trace1, ktStatus.KD_ERROR)
    else
      let obstacleName : CosNamingName := [⟨"Obstacle", "Object"⟩]
      let trace2 := trace1 ++ [CorbaAction.removeRef "robot",
        CorbaAction.bindObjectToName "obstacle" obstacleName]
      if !env.bindObstacleOk then (trace2, ktStatus.KD_ERROR)
      else
        let problemName : CosNamingName := [⟨"Problem", "Object"⟩]
        let trace3 := trace2 ++ [CorbaAction.removeRef "obstacle",
          CorbaAction.bindObjectToName "problem" problemName]
        if !env.bindProblemOk then (trace3, ktStatus.KD_ERROR)
        else (trace3 ++ [CorbaAction.removeRef "problem",
          CorbaAction.activatePOAManager], ktStatus.KD_OK)

/-
            REQUEST PROCESSING  (hppciServer.cpp lines 307-319)
-/

/-- An incoming remote call queued by the broker (abstract identity). -/
abbrev RemoteCall := Nat

/-- The broker's dispatch queue as the server observes it. -/
structure OrbState where
  pendingCalls : List RemoteCall
deriving DecidableEq

/-- `orb->work_pending()`: whether at least one call awaits dispatch. -/
def workPending (orb : OrbState) : Bool := !orb.pendingCalls.isEmpty

/-- `orb->perform_work()`: external broker primitive performing one unit of
work — it dispatches exactly one pending call when one exists. -/
def performWork (orb : OrbState) : OrbState × List RemoteCall :=
  match orb.pendingCalls with
  | [] => (orb, [])
  | c :: rest => (⟨rest⟩, [c])

/-- Result of `ChppciServer::processRequest`: either it entered the blocking
`orb->run()` loop (never returning under normal operation), or it returned,
with the resulting broker state, the calls dispatched during this
invocation, and the C++ return value. -/
inductive ProcessOutcome where
  | enteredRunLoop : ProcessOutcome
  | returned (orb : OrbState) (dispatched : List RemoteCall) (ret : Int) :
      ProcessOutcome
deriving DecidableEq

/-- `ChppciServer::processRequest` (lines 307-319): with `loop` true it
enters `orb->run()`; with `loop` false it calls `perform_work()` once when
`work_pending()` holds and nothing otherwise, then returns 0. -/
def processRequest (orb : OrbState) (loop : Bool) : ProcessOutcome :=
  if loop then ProcessOutcome.enteredRunLoop
  else
    if workPending orb then
      let (orb2, done) := performWork orb
      ProcessOutcome.returned orb2 done 0
    else ProcessOutcome.returned orb [] 0

/-
            CONCRETE EXAMPLE VALUES (used to instantiate the theorems)
-/

/-- A small steering-method registry with unique keys. -/
def exampleSMmap : RegMap CkwsPlusSteeringMethodFactory :=
  [("rs", some (CkwsPlusSteeringMethodFactory.rsSMFactory 1))]

/-- A small distance-function registry with unique keys. -/
def exampleDFmap : RegMap CkwsPlusDistanceFactory :=
  [("rs", some (CkwsPlusDistanceFactory.rsDistanceFactory 1))]

/-- A concrete stand-in for the external `makeSteeringMethod` virtual call. -/
def exampleMakeSM : CkwsPlusSteeringMethodFactory → Bool → Option Nat :=
  fun _ oriented => some (if oriented then 1 else 0)

/-- A concrete stand-in for the external `makeDistance` virtual call. -/
def exampleMakeDF : CkwsPlusDistanceFactory → Bool → Option Nat :=
  fun _ oriented => some (if oriented then 3 else 2)

/-
            MAP MODEL LEMMAS
-/

theorem mapFind_eq_none_iff_count_zero {V : Type} (m : List (String × V))
    (k : String) : mapFind m k = none ↔ mapCount m k = 0 := by
  induction m with
  | nil => simp [mapFind, mapCount]
  | cons p rest ih =>
    by_cases h : p.1 = k
    · simp [mapFind, mapCount, h]
    · simp [mapFind, mapCount, h, ih]

theorem mapCount_eq_zero_of_not_mem_keys {V : Type} (m : List (String × V))
    (k : String) (h : k ∉ m.map Prod.fst) : mapCount m k = 0 := by
  induction m with
  | nil => simp [mapCount]
  | cons p rest ih =>
    have h1 : p.1 ≠ k := fun he => h (by simp [he])
    have h2 : k ∉ rest.map Prod.fst := fun hm => h (by simp [hm])
    simp [mapCount, h1, ih h2]

theorem mapCount_le_one_of_nodupKeys {V : Type} (m : List (String × V))
    (k : String) (h : nodupKeys m) : mapCount m k ≤ 1 := by
  induction m with
  | nil => simp [mapCount]
  | cons p rest ih =>
    have hnd : p.1 ∉ rest.map Prod.fst ∧ nodupKeys rest := by
      simpa [nodupKeys, List.nodup_cons] using h
    by_cases hk : p.1 = k
    · have hzero : mapCount rest k = 0 :=
        mapCount_eq_zero_of_not_mem_keys rest k (hk ▸ hnd.1)
      simp [mapCount, hk, hzero]
    · simpa [mapCount, hk] using ih hnd.2

theorem mapCount_pos_of_mapFind_isSome {V : Type} (m : List (String × V))
    (k : String) (h : (mapFind m k).isSome) : 1 ≤ mapCount m k := by
  rcases Nat.eq_zero_or_pos (mapCount m k) with h0 | h1
  · rw [← mapFind_eq_none_iff_count_zero] at h0
    rw [h0] at h
    simp at h
  · exact h1

theorem mapCount_eq_one_of_mapFind_some {V : Type} (m : List (String × V))
    (k : String) (v : V) (hnd : nodupKeys m) (h : mapFind m k = some v) :
    mapCount m k = 1 := by
  have h1 := mapCount_pos_of_mapFind_isSome m k (by simp [h])
  have h2 := mapCount_le_one_of_nodupKeys m k hnd
  omega

theorem mapFind_mapAssign_self {V : Type} (m : List (String × V)) (k : String)
    (v : V) : mapFind (mapAssign m k v) k = some v := by
  induction m with
  | nil => simp [mapAssign, mapFind]
  | cons p rest ih =>
    by_cases h : p.1 = k
    · simp [mapAssign, mapFind, h]
    · simp [mapAssign, mapFind, h, ih]

theorem mapFind_mapAssign_ne {V : Type} (m : List (String × V))
    (k k2 : String) (v : V) (h : k2 ≠ k) :
    mapFind (mapAssign m k v) k2 = mapFind m k2 := by
  have hk : ¬ k = k2 := fun he => h he.symm
  induction m with
  | nil => simp [mapAssign, mapFind, hk]
  | cons p rest ih =>
    by_cases hp : p.1 = k
    · simp [mapAssign, mapFind, hp, hk]
    · by_cases hq : p.1 = k2
      · simp [mapAssign, mapFind, hp, hq, hk, h]
      · simp [mapAssign, mapFind, hp, hq, ih]

theorem mapIndex_of_mapFind_some {V : Type} (m : List (String × V))
    (k : String) (dflt v : V) (h : mapFind m k = some v) :
    mapIndex m k dflt = (m, v) := by
  simp [mapIndex, h]

theorem steeringAlreadySet_iff (m : RegMap CkwsPlusSteeringMethodFactory)
    (k : String) :
    steeringMethodFactoryAlreadySet m k = true ↔ mapCount m k = 1 := by
  by_cases h : mapCount m k = 1 <;> simp [steeringMethodFactoryAlreadySet, h]

theorem distanceAlreadySet_iff (m : RegMap CkwsPlusDistanceFactory)
    (k : String) :
    distanceFactoryAlreadySet m k = true ↔ mapCount m k = 1 := by
  by_cases h : mapCount m k = 1 <;> simp [distanceFactoryAlreadySet, h]

/-
            CLAIM C1
-/

/-- C1: for both registries (steering-method and distance-function) and every
name, registering a factory under an already-present name returns `false` and
leaves the registry unmodified, while registering under an absent name (the
empty string included, names being ordinary string keys) returns `true`,
stores exactly that factory under that name, and changes the binding of no
other name. -/
theorem C1_registerFactory_contract
    (msm : RegMap CkwsPlusSteeringMethodFactory)
    (mdf : RegMap CkwsPlusDistanceFactory) (name : String)
    (fsm : Option CkwsPlusSteeringMethodFactory)
    (fdf : Option CkwsPlusDistanceFactory)
    (hsm : nodupKeys msm) (hdf : nodupKeys mdf) :
    ((mapFind msm name).isSome →
      addSteeringMethodFactory msm name fsm = (msm, false)) ∧
    (mapFind msm name = none →
      (addSteeringMethodFactory msm name fsm).2 = true ∧
      mapFind (addSteeringMethodFactory msm name fsm).1 name = some fsm ∧
      ∀ k2, k2 ≠ name →
        mapFind (addSteeringMethodFactory msm name fsm).1 k2 = mapFind msm k2) ∧
    ((mapFind mdf name).isSome →
      addDistanceFactory mdf name fdf = (mdf, false)) ∧
    (mapFind mdf name = none →
      (addDistanceFactory mdf name fdf).2 = true ∧
      mapFind (addDistanceFactory mdf name fdf).1 name = some fdf ∧
      ∀ k2, k2 ≠ name →
        mapFind (addDistanceFactory mdf name fdf).1 k2 = mapFind mdf k2) := by
  refine ⟨?_, ?_, ?_, ?_⟩
  · intro h
    obtain ⟨v, hv⟩ := Option.isSome_iff_exists.mp h
    have hc := mapCount_eq_one_of_mapFind_some msm name v hsm hv
    simp [addSteeringMethodFactory, steeringMethodFactoryAlreadySet, hc]
  · intro h
    have hc := (mapFind_eq_none_iff_count_zero msm name).mp h
    have hne : ¬ mapCount msm name = 1 := by omega
    refine ⟨?_, ?_, ?_⟩
    · simp [addSteeringMethodFactory, steeringMethodFactoryAlreadySet, hne]
    · simp [addSteeringMethodFactory, steeringMethodFactoryAlreadySet, hne,
        mapFind_mapAssign_self]
    · intro k2 hk2
      simp only [addSteeringMethodFactory, steeringMethodFactoryAlreadySet,
        hne, if_false, if_neg hne]
      exact mapFind_mapAssign_ne msm name k2 fsm hk2
  · intro h
    obtain ⟨v, hv⟩ := Option.isSome_iff_exists.mp h
    have hc := mapCount_eq_one_of_mapFind_some mdf name v hdf hv
    simp [addDistanceFactory, distanceFactoryAlreadySet, hc]
  · intro h
    have hc := (mapFind_eq_none_iff_count_zero mdf name).mp h
    have hne : ¬ mapCount mdf name = 1 := by omega
    refine ⟨?_, ?_, ?_⟩
    · simp [addDistanceFactory, distanceFactoryAlreadySet, hne]
    · simp [addDistanceFactory, distanceFactoryAlreadySet, hne,
        mapFind_mapAssign_self]
    · intro k2 hk2
      simp only [addDistanceFactory, distanceFactoryAlreadySet,
        hne, if_false, if_neg hne]
      exact mapFind_mapAssign_ne mdf name k2 fdf hk2

/-- Witness for C1: registering under the absent empty name succeeds in both
concrete registries (whose only key is "rs"). -/
theorem C1_registerFactory_contract_witness :
    nodupKeys exampleSMmap ∧ nodupKeys exampleDFmap ∧
    (((mapFind exampleSMmap "").isSome →
        addSteeringMethodFactory exampleSMmap ""
          (some CkwsPlusSteeringMethodFactory.linearSMFactory)
          = (exampleSMmap, false)) ∧
     (mapFind exampleSMmap "" = none →
        (addSteeringMethodFactory exampleSMmap ""
          (some CkwsPlusSteeringMethodFactory.linearSMFactory)).2 = true ∧
        mapFind (addSteeringMethodFactory exampleSMmap ""
          (some CkwsPlusSteeringMethodFactory.linearSMFactory)).1 ""
          = some (some CkwsPlusSteeringMethodFactory.linearSMFactory) ∧
        ∀ k2, k2 ≠ "" →
          mapFind (addSteeringMethodFactory exampleSMmap ""
            (some CkwsPlusSteeringMethodFactory.linearSMFactory)).1 k2
            = mapFind exampleSMmap k2) ∧
     ((mapFind exampleDFmap "").isSome →
        addDistanceFactory exampleDFmap ""
          (some CkwsPlusDistanceFactory.linearDistanceFactory)
          = (exampleDFmap, false)) ∧
     (mapFind exampleDFmap "" = none →
        (addDistanceFactory exampleDFmap ""
          (some CkwsPlusDistanceFactory.linearDistanceFactory)).2 = true ∧
        mapFind (addDistanceFactory exampleDFmap ""
          (some CkwsPlusDistanceFactory.linearDistanceFactory)).1 ""
          = some (some CkwsPlusDistanceFactory.linearDistanceFactory) ∧
        ∀ k2, k2 ≠ "" →
          mapFind (addDistanceFactory exampleDFmap ""
            (some CkwsPlusDistanceFactory.linearDistanceFactory)).1 k2
            = mapFind exampleDFmap k2)) :=
  ⟨by decide, by decide,
   C1_registerFactory_contract exampleSMmap exampleDFmap ""
     (some CkwsPlusSteeringMethodFactory.linearSMFactory)
     (some CkwsPlusDistanceFactory.linearDistanceFactory)
     (by decide) (by decide)⟩

/-
            CLAIM C2
-/

/-- C2: for every name and orientation flag, `createSteeringMethod` /
`createDistanceFunction` return the absent (null) result when the name is
not registered — no exception path exists, the functions are total — and
when the name is registered with a (non-null) factory they return exactly
the result of that factory's virtual construct call with the oriented flag
passed through unchanged. -/
theorem C2_construct_on_demand {SM D : Type}
    (makeSteeringMethod : CkwsPlusSteeringMethodFactory → Bool → Option SM)
    (makeDistance : CkwsPlusDistanceFactory → Bool → Option D)
    (msm : RegMap CkwsPlusSteeringMethodFactory)
    (mdf : RegMap CkwsPlusDistanceFactory)
    (name : String) (oriented : Bool)
    (hsm : nodupKeys msm) (hdf : nodupKeys mdf) :
    (mapFind msm name = none →
      (createSteeringMethod makeSteeringMethod msm name oriented).2 = none) ∧
    (∀ f, mapFind msm name = some (some f) →
      (createSteeringMethod makeSteeringMethod msm name oriented).2
        = makeSteeringMethod f oriented) ∧
    (mapFind mdf name = none →
      (createDistanceFunction makeDistance mdf name oriented).2 = none) ∧
    (∀ f, mapFind mdf name = some (some f) →
      (createDistanceFunction makeDistance mdf name oriented).2
        = makeDistance f oriented) := by
  refine ⟨?_, ?_, ?_, ?_⟩
  · intro h
    have hc := (mapFind_eq_none_iff_count_zero msm name).mp h
    have hne : ¬ mapCount msm name = 1 := by omega
    simp [createSteeringMethod, steeringMethodFactoryAlreadySet, hne]
  · intro f hf
    have hc := mapCount_eq_one_of_mapFind_some msm name (some f) hsm hf
    have hidx := mapIndex_of_mapFind_some msm name none (some f) hf
    simp [createSteeringMethod, steeringMethodFactoryAlreadySet, hc, hidx]
  · intro h
    have hc := (mapFind_eq_none_iff_count_zero mdf name).mp h
    have hne : ¬ mapCount mdf name = 1 := by omega
    simp [createDistanceFunction, distanceFactoryAlreadySet, hne]
  · intro f hf
    have hc := mapCount_eq_one_of_mapFind_some mdf name (some f) hdf hf
    have hidx := mapIndex_of_mapFind_some mdf name none (some f) hf
    simp [createDistanceFunction, distanceFactoryAlreadySet, hc, hidx]

/-- Witness for C2: in the concrete registries the name "rs" is registered,
so construction delegates to the concrete factory stand-ins; the unknown
name case is exercised by the absent antecedents being decided. -/
theorem C2_construct_on_demand_witness :
    (mapFind exampleSMmap "rs" = none →
      (createSteeringMethod exampleMakeSM exampleSMmap "rs" true).2 = none) ∧
    (∀ f, mapFind exampleSMmap "rs" = some (some f) →
      (createSteeringMethod exampleMakeSM exampleSMmap "rs" true).2
        = exampleMakeSM f true) ∧
    (mapFind exampleDFmap "rs" = none →
      (createDistanceFunction exampleMakeDF exampleDFmap "rs" true).2 = none) ∧
    (∀ f, mapFind exampleDFmap "rs" = some (some f) →
      (createDistanceFunction exampleMakeDF exampleDFmap "rs" true).2
        = exampleMakeDF f true) :=
  C2_construct_on_demand exampleMakeSM exampleMakeDF exampleSMmap exampleDFmap
    "rs" true (by decide) (by decide)

/-
            CLAIM C10
-/

/-- C10: construction-on-demand never changes the registry: for every name
(registered or not) and orientation flag, the map component returned by
`createSteeringMethod` / `createDistanceFunction` is exactly the input map —
no entry is inserted for an unknown name (the `operator[]` default-insertion
path is unreachable under the `alreadySet` guard) and no stored factory is
replaced or removed. -/
theorem C10_create_leaves_registry_unchanged {SM D : Type}
    (makeSteeringMethod : CkwsPlusSteeringMethodFactory → Bool → Option SM)
    (makeDistance : CkwsPlusDistanceFactory → Bool → Option D)
    (msm : RegMap CkwsPlusSteeringMethodFactory)
    (mdf : RegMap CkwsPlusDistanceFactory)
    (name : String) (oriented : Bool) :
    (createSteeringMethod makeSteeringMethod msm name oriented).1 = msm ∧
    (createDistanceFunction makeDistance mdf name oriented).1 = mdf := by
  constructor
  · by_cases hc : mapCount msm name = 1
    · obtain ⟨v, hv⟩ : ∃ v, mapFind msm name = some v := by
        cases hfind : mapFind msm name with
        | none =>
          rw [mapFind_eq_none_iff_count_zero] at hfind
          omega
        | some v => exact ⟨v, rfl⟩
      have hidx := mapIndex_of_mapFind_some msm name none v hv
      cases v with
      | none =>
        simp [createSteeringMethod, steeringMethodFactoryAlreadySet, hc, hidx]
      | some f =>
        simp [createSteeringMethod, steeringMethodFactoryAlreadySet, hc, hidx]
    · simp [createSteeringMethod, steeringMethodFactoryAlreadySet, hc]
  · by_cases hc : mapCount mdf name = 1
    · obtain ⟨v, hv⟩ : ∃ v, mapFind mdf name = some v := by
        cases hfind : mapFind mdf name with
        | none =>
          rw [mapFind_eq_none_iff_count_zero] at hfind
          omega
        | some v => exact ⟨v, rfl⟩
      have hidx := mapIndex_of_mapFind_some mdf name none v hv
      cases v with
      | none =>
        simp [createDistanceFunction, distanceFactoryAlreadySet, hc, hidx]
      | some f =>
        simp [createDistanceFunction, distanceFactoryAlreadySet, hc, hidx]
    · simp [createDistanceFunction, distanceFactoryAlreadySet, hc]

/-
            CLAIM C3
-/

theorem construct_attMapSM (p : ChppPlanner) (env : BootstrapEnv) :
    (ChppciServer.construct p env).attMapSteeringMethodFactory
      = initMapSteeringMethodFactory [] := rfl

theorem construct_attMapDF (p : ChppPlanner) (env : BootstrapEnv) :
    (ChppciServer.construct p env).attMapDistanceFunctionFactory
      = initMapDistanceFunctionFactory [] := rfl

theorem initSM_eq_list :
    initMapSteeringMethodFactory []
      = [("linear", some CkwsPlusSteeringMethodFactory.linearSMFactory),
         ("rs", some (CkwsPlusSteeringMethodFactory.rsSMFactory 1)),
         ("flic", some CkwsPlusSteeringMethodFactory.flicSMFactory)] := by
  decide

theorem initDF_eq_list :
    initMapDistanceFunctionFactory []
      = [("linear", some CkwsPlusDistanceFactory.linearDistanceFactory),
         ("rs", some (CkwsPlusDistanceFactory.rsDistanceFactory 1)),
         ("flic", some CkwsPlusDistanceFactory.approxFlicDistanceFactory)] := by
  decide

/-- C3: immediately after `ChppciServer` construction and before any
external registration, both registries answer `alreadySet` (the `has` of the
spec) positively for exactly the three names "linear", "rs", "flic" and
negatively for every other name. -/
theorem C3_builtin_names (p : ChppPlanner) (env : BootstrapEnv)
    (name : String) :
    (steeringMethodFactoryAlreadySet
        (ChppciServer.construct p env).attMapSteeringMethodFactory name = true
      ↔ (name = "linear" ∨ name = "rs" ∨ name = "flic")) ∧
    (distanceFactoryAlreadySet
        (ChppciServer.construct p env).attMapDistanceFunctionFactory name = true
      ↔ (name = "linear" ∨ name = "rs" ∨ name = "flic")) := by
  rw [construct_attMapSM, construct_attMapDF, initSM_eq_list, initDF_eq_list]
  by_cases h1 : name = "linear"
  · subst h1
    constructor <;> constructor <;> intro <;> decide
  · by_cases h2 : name = "rs"
    · subst h2
      constructor <;> constructor <;> intro <;> decide
    · by_cases h3 : name = "flic"
      · subst h3
        constructor <;> constructor <;> intro <;> decide
      · have c1 : ¬ "linear" = name := fun he => h1 he.symm
        have c2 : ¬ "rs" = name := fun he => h2 he.symm
        have c3 : ¬ "flic" = name := fun he => h3 he.symm
        constructor
        · simp [steeringMethodFactoryAlreadySet, mapCount, c1, c2, c3,
            h1, h2, h3]
        · simp [distanceFactoryAlreadySet, mapCount, c1, c2, c3,
            h1, h2, h3]

/-
            CLAIM C8
-/

/-- C8: at most one coordinator is ever reachable through the singleton
accessor: construction makes `getInstance` return exactly the newly
constructed instance, destruction makes it return the absent value, and the
only event after which `getInstance` is non-absent is a construction — so
after a destruction it stays absent until a new instance is constructed. -/
theorem C8_singleton_accessor (s : Option ChppciServer) (p : ChppPlanner)
    (env : BootstrapEnv) :
    getInstance (stepStatic s (ServerEvent.construct p env))
      = some (ChppciServer.construct p env) ∧
    getInstance (stepStatic s ServerEvent.destroy) = none ∧
    ∀ e : ServerEvent, getInstance (stepStatic s e) ≠ none →
      ∃ q env2, e = ServerEvent.construct q env2 ∧
        getInstance (stepStatic s e) = some (ChppciServer.construct q env2) := by
  refine ⟨rfl, rfl, ?_⟩
  intro e he
  cases e with
  | construct q env2 => exact ⟨q, env2, rfl, rfl⟩
  | destroy => exact absurd rfl he

/-- Witness for C8: a concrete destroy after a construct leaves the accessor
absent. -/
theorem C8_singleton_accessor_witness :
    getInstance (stepStatic
      (some (ChppciServer.construct ⟨0⟩ ⟨true, true, true, true, true, ktStatus.KD_OK⟩))
      ServerEvent.destroy) = none :=
  (C8_singleton_accessor
    (some (ChppciServer.construct ⟨0⟩ ⟨true, true, true, true, true, ktStatus.KD_OK⟩))
    ⟨0⟩ ⟨true, true, true, true, true, ktStatus.KD_OK⟩).2.1

/-
            CLAIM C9
-/

/-- C9: the constructor discards the `ktStatus` of `initORBandServers`: for
every bootstrap outcome — a failing one included, as the exhibited
`KD_ERROR` outcome shows — the constructed object is identical, both
registries hold the three built-in names, and the singleton accessor
returns the new instance; the constructor exposes no status to its caller
(its only result is the object itself). -/
theorem C9_bootstrap_status_discarded (p : ChppPlanner)
    (env env2 : BootstrapEnv) (s : Option ChppciServer) :
    ChppciServer.construct p env = ChppciServer.construct p env2 ∧
    initORBandServers ⟨false, true, true, true, true, ktStatus.KD_OK⟩
      = ktStatus.KD_ERROR ∧
    (steeringMethodFactoryAlreadySet
        (ChppciServer.construct p env).attMapSteeringMethodFactory "linear" = true ∧
     steeringMethodFactoryAlreadySet
        (ChppciServer.construct p env).attMapSteeringMethodFactory "rs" = true ∧
     steeringMethodFactoryAlreadySet
        (ChppciServer.construct p env).attMapSteeringMethodFactory "flic" = true ∧
     distanceFactoryAlreadySet
        (ChppciServer.construct p env).attMapDistanceFunctionFactory "linear" = true ∧
     distanceFactoryAlreadySet
        (ChppciServer.construct p env).attMapDistanceFunctionFactory "rs" = true ∧
     distanceFactoryAlreadySet
        (ChppciServer.construct p env).attMapDistanceFunctionFactory "flic" = true) ∧
    getInstance (stepStatic s (ServerEvent.construct p env))
      = some (ChppciServer.construct p env) := by
  refine ⟨rfl, rfl, ⟨?_, ?_, ?_, ?_, ?_, ?_⟩, rfl⟩
  · rw [construct_attMapSM p env]; decide
  · rw [construct_attMapSM p env]; decide
  · rw [construct_attMapSM p env]; decide
  · rw [construct_attMapDF p env]; decide
  · rw [construct_attMapDF p env]; decide
  · rw [construct_attMapDF p env]; decide

/-
            CLAIM C4
-/

theorem destroySM_countP_distance (m : RegMap CkwsPlusSteeringMethodFactory) :
    (destroySteeringMethodFactories m).countP isDeleteDistanceAction = 0 := by
  induction m with
  | nil => rfl
  | cons q rest ih =>
    simp [destroySteeringMethodFactories, List.countP_cons,
      isDeleteDistanceAction]

theorem destroySM_countP_steering (m : RegMap CkwsPlusSteeringMethodFactory) :
    (destroySteeringMethodFactories m).countP isDeleteSteeringAction
      = m.length := by
  induction m with
  | nil => rfl
  | cons q rest ih =>
    simp [destroySteeringMethodFactories, List.countP_cons,
      isDeleteSteeringAction]

theorem destroySM_filter_steering (m : RegMap CkwsPlusSteeringMethodFactory) :
    (destroySteeringMethodFactories m).filter isDeleteSteeringAction
      = destroySteeringMethodFactories m := by
  induction m with
  | nil => rfl
  | cons q rest ih =>
    simp [destroySteeringMethodFactories, List.filter_cons,
      isDeleteSteeringAction] at *
    exact ih

/-- C4 divergence (code bug): the destructor of `ChppciServer` performs NO
release of any distance-function factory — `destroyDistanceFunctionFactories`
exists in the source but is never called — although the distance registry of
a freshly constructed server holds 3 factories; the steering-method
factories, by contrast, are released once per entry (the deletions are
exactly one per map entry, in order). -/
theorem C4_distance_factories_never_released (p : ChppPlanner)
    (env : BootstrapEnv) :
    (∀ srv : ChppciServer,
      (serverDestructor srv).countP isDeleteDistanceAction = 0 ∧
      (serverDestructor srv).countP isDeleteSteeringAction
        = srv.attMapSteeringMethodFactory.length ∧
      (serverDestructor srv).filter isDeleteSteeringAction
        = srv.attMapSteeringMethodFactory.map
            (fun q => DtorAction.deleteSteeringMethodFactory q.1 q.2)) ∧
    (ChppciServer.construct p env).attMapDistanceFunctionFactory.length = 3 := by
  constructor
  · intro srv
    refine ⟨?_, ?_, ?_⟩
    · simp [serverDestructor, List.countP_append, isDeleteDistanceAction,
        destroySM_countP_distance, List.countP_cons]
    · simp [serverDestructor, List.countP_append, isDeleteSteeringAction,
        destroySM_countP_steering, List.countP_cons]
    · have h := destroySM_filter_steering srv.attMapSteeringMethodFactory
      simp [serverDestructor, List.filter_append, isDeleteSteeringAction,
        destroySteeringMethodFactories] at *
      exact h
  · rw [construct_attMapDF p env]; decide

/-
            CLAIM C5
-/

/-- C5: if context creation or any one of the three bindings fails,
`startCorbaServer` returns the error status and the POA manager is never
activated (the coordinator never starts serving); moreover the bindings
after the failing step are not attempted: after a context failure no object
is bound, after a robot-binding failure neither obstacle nor problem is
bound, after an obstacle-binding failure problem is not bound. -/
theorem C5_failure_aborts (env : StartEnv) :
    ((env.createHppContextOk = false ∨ env.bindRobotOk = false ∨
        env.bindObstacleOk = false ∨ env.bindProblemOk = false) →
      (startCorbaServer env).2 = ktStatus.KD_ERROR ∧
      CorbaAction.activatePOAManager ∉ (startCorbaServer env).1) ∧
    (env.createHppContextOk = false →
      ∀ tag nm, CorbaAction.bindObjectToName tag nm ∉ (startCorbaServer env).1) ∧
    (env.createHppContextOk = true → env.bindRobotOk = false →
      (∀ nm, CorbaAction.bindObjectToName "obstacle" nm
          ∉ (startCorbaServer env).1) ∧
      (∀ nm, CorbaAction.bindObjectToName "problem" nm
          ∉ (startCorbaServer env).1)) ∧
    (env.createHppContextOk = true → env.bindRobotOk = true →
        env.bindObstacleOk = false →
      ∀ nm, CorbaAction.bindObjectToName "problem" nm
          ∉ (startCorbaServer env).1) := by
  obtain ⟨a, b, c, d⟩ := env
  refine ⟨?_, ?_, ?_, ?_⟩
  · intro hfail
    cases a <;> cases b <;> cases c <;> cases d <;> simp_all [startCorbaServer]
  · intro ha tag nm
    subst ha
    simp [startCorbaServer]
  · intro ha hb
    subst ha
    subst hb
    constructor <;> intro nm <;> simp [startCorbaServer]
  · intro ha hb hc nm
    subst ha
    subst hb
    subst hc
    simp [startCorbaServer]

/-- Witness for C5: the obstacle binding fails concretely. -/
theorem C5_failure_aborts_witness :
    (startCorbaServer ⟨true, true, false, true⟩).2 = ktStatus.KD_ERROR ∧
    CorbaAction.activatePOAManager
      ∉ (startCorbaServer ⟨true, true, false, true⟩).1 :=
  (C5_failure_aborts ⟨true, true, false, true⟩).1
    (Or.inr (Or.inr (Or.inl rfl)))

/-
            CLAIM C6
-/

theorem startCorbaServer_trace_subset (env : StartEnv) (a : CorbaAction)
    (ha : a ∈ (startCorbaServer env).1) :
    a ∈ (startCorbaServer ⟨true, true, true, true⟩).1 := by
  obtain ⟨e1, e2, e3, e4⟩ := env
  cases e1 <;> cases e2 <;> cases e3 <;> cases e4 <;>
    simp_all [startCorbaServer] <;> tauto

/-- C6: every binding attempted by `startCorbaServer` uses a one-segment
symbolic name whose `kind` field is the fixed literal "Object"; the robot,
obstacle and problem servants are bound with `id` exactly "Robot",
"Obstacle" and "Problem" respectively. -/
theorem C6_binding_names (env : StartEnv) (tag : String) (nm : CosNamingName)
    (h : CorbaAction.bindObjectToName tag nm ∈ (startCorbaServer env).1) :
    nm.length = 1 ∧
    (∀ seg ∈ nm, seg.kind = "Object") ∧
    ((tag = "robot" ∧ nm = [⟨"Robot", "Object"⟩]) ∨
     (tag = "obstacle" ∧ nm = [⟨"Obstacle", "Object"⟩]) ∨
     (tag = "problem" ∧ nm = [⟨"Problem", "Object"⟩])) := by
  have hfull := startCorbaServer_trace_subset env _ h
  simp [startCorbaServer] at hfull
  rcases hfull with ⟨rfl, rfl⟩ | ⟨rfl, rfl⟩ | ⟨rfl, rfl⟩ <;> simp

/-- Witness for C6: the robot binding of a fully successful run. -/
theorem C6_binding_names_witness :
    CorbaAction.bindObjectToName "robot" [⟨"Robot", "Object"⟩]
        ∈ (startCorbaServer ⟨true, true, true, true⟩).1 ∧
    (([⟨"Robot", "Object"⟩] : CosNamingName).length = 1 ∧
     (∀ seg ∈ ([⟨"Robot", "Object"⟩] : CosNamingName), seg.kind = "Object") ∧
     (("robot" = "robot" ∧
        ([⟨"Robot", "Object"⟩] : CosNamingName) = [⟨"Robot", "Object"⟩]) ∨
      ("robot" = "obstacle" ∧
        ([⟨"Robot", "Object"⟩] : CosNamingName) = [⟨"Obstacle", "Object"⟩]) ∨
      ("robot" = "problem" ∧
        ([⟨"Robot", "Object"⟩] : CosNamingName) = [⟨"Problem", "Object"⟩]))) :=
  ⟨by decide,
   C6_binding_names ⟨true, true, true, true⟩ "robot" [⟨"Robot", "Object"⟩]
     (by decide)⟩

/-
            CLAIM C7
-/

/-- C7: polling-mode request processing (`processRequest` with `loop`
false): with zero pending calls it returns at once, dispatching nothing and
leaving the broker state unchanged, returning 0; with exactly one pending
call it dispatches exactly that call and returns; whenever it returns, at
most one unit of dispatch work was performed. -/
theorem C7_polling_mode (orb : OrbState) :
    (orb.pendingCalls = [] →
      processRequest orb false = ProcessOutcome.returned orb [] 0) ∧
    (∀ c : RemoteCall, orb.pendingCalls = [c] →
      processRequest orb false = ProcessOutcome.returned ⟨[]⟩ [c] 0) ∧
    (∀ orb2 dispatched ret,
      processRequest orb false = ProcessOutcome.returned orb2 dispatched ret →
      dispatched.length ≤ 1) := by
  obtain ⟨calls⟩ := orb
  refine ⟨?_, ?_, ?_⟩
  · intro h
    subst h
    rfl
  · intro c h
    subst h
    rfl
  · intro orb2 dispatched ret h
    cases calls with
    | nil =>
      simp [processRequest, workPending, performWork] at h
      obtain ⟨h1, h2, h3⟩ := h
      subst h2
      simp
    | cons c rest =>
      simp [processRequest, workPending, performWork] at h
      obtain ⟨h1, h2, h3⟩ := h
      subst h2
      simp

/-- Witness for C7: zero pending calls, then exactly one pending call. -/
theorem C7_polling_mode_witness :
    processRequest ⟨[]⟩ false = ProcessOutcome.returned ⟨[]⟩ [] 0 ∧
    processRequest ⟨[7]⟩ false = ProcessOutcome.returned ⟨[]⟩ [7] 0 :=
  ⟨(C7_polling_mode ⟨[]⟩).1 rfl, (C7_polling_mode ⟨[7]⟩).2.1 7 rfl⟩
